import Mathlib

/-!
Verification development for the lychee-meta-tool repository.

The definitions below are a shallow embedding of the Go source:
* backend/models/album.go   — the title classifier (IsGenericTitle and its
  regular-expression pattern table),
* backend/models/photo.go   — Photo.NeedsMetadata and its helpers,
* backend/db/queries.go     — GetPhotosNeedingMetadata, GetPhotoByID,
  UpdatePhoto, UpdatePhotoAlbum, and the dialect conversion of the
  eligibility predicate (convertToPostgreSQL / convertToSQLite),
* backend/handlers/validation.go + backend/constants — validateLimit,
  validateOffset, MaxPhotoLimit, DefaultPhotoLimit.

Strings are modelled as Lean String / List Char.  The Go regular
expressions used by the code are fixed, concrete patterns, so each one is
embedded as an executable matcher over List Char; each matcher is written
to have exactly the language of the corresponding Go regexp (all patterns
are anchored with ^ and $ in the source, and every optional element in
them is decided deterministically because the neighbouring character
classes are disjoint).  SQL string-literal escaping of backslashes, which
differs per server configuration, is not modelled: the REGEXP dialect
predicates below are the regular expressions as written in the code.
The in-memory relational store is modelled by explicit lists of rows.
-/

namespace LycheeMeta

/-- Character class [0-9A-Za-z_], i.e. the \w class of Go's RE2 engine. -/
def isWordChar (c : Char) : Bool :=
  c.isAlphanum || c == '_'

/-- Character class [0-9a-fA-F] used by the UUID pattern. -/
def isHexChar (c : Char) : Bool :=
  c.isDigit || ('a' ≤ c && c ≤ 'f') || ('A' ≤ c && c ≤ 'F')

/-- Unicode White_Space test, as used by Go's strings.TrimSpace
(unicode.IsSpace).  All White_Space code points are listed. -/
def goIsSpace (c : Char) : Bool :=
  let n := c.toNat
  n == 0x9 || n == 0xA || n == 0xB || n == 0xC || n == 0xD || n == 0x20 ||
  n == 0x85 || n == 0xA0 || n == 0x1680 ||
  (0x2000 ≤ n && n ≤ 0x200A) ||
  n == 0x2028 || n == 0x2029 || n == 0x202F || n == 0x205F || n == 0x3000

/-- strings.TrimSpace from the Go standard library, on a character list. -/
def trimSpaceL (l : List Char) : List Char :=
  ((l.dropWhile goIsSpace).reverse.dropWhile goIsSpace).reverse

/-- Matcher for the anchored regexp fragment (\.\w+)?$ : the remainder of
the title is empty, or a dot followed by one or more word characters. -/
def optExt : List Char → Bool
  | [] => true
  | '.' :: rest => !rest.isEmpty && rest.all isWordChar
  | _ => false

/-- Matcher for the fragment \d+(\.\w+)?$ : one or more digits, then an
optional extension.  The maximal digit run is correct because a dot is
not a digit, so the regexp engine has no other way to split. -/
def digitsThenOptExt (l : List Char) : Bool :=
  !(l.takeWhile Char.isDigit).isEmpty && optExt (l.dropWhile Char.isDigit)

/-- Consume exactly n characters of class p, returning the rest. -/
def chunk (n : Nat) (p : Char → Bool) (l : List Char) : Option (List Char) :=
  if (l.take n).length = n && (l.take n).all p then some (l.drop n) else none

/-- Consume a literal string at the head of the list, returning the rest. -/
def dropLit (s : String) (l : List Char) : Option (List Char) :=
  if l.take s.length = s.data then some (l.drop s.length) else none

/-- Matcher for the camera patterns of the form ^LIT\d+(\.\w+)?$ in
album.go (LIT one of IMG_, DSC_, DSCN, DSCF, CDZ_). -/
def matchLitDigits (lit : String) (l : List Char) : Bool :=
  match dropLit lit l with
  | some rest => digitsThenOptExt rest
  | none => false

/-- Matcher for ^P\d\x7b7\x7d(\.\w+)?$ from album.go. -/
def matchP7 (l : List Char) : Bool :=
  match dropLit "P" l with
  | some rest =>
    match chunk 7 Char.isDigit rest with
    | some r => optExt r
    | none => false
  | none => false

/-- Matcher for the timestamp pattern ^\d\x7b8\x7d_\d\x7b6\x7d(\.\w+)?$
from album.go and queries.go. -/
def matchTimestamp (l : List Char) : Bool :=
  match chunk 8 Char.isDigit l with
  | some ('_' :: rest) =>
    match chunk 6 Char.isDigit rest with
    | some r => optExt r
    | none => false
  | _ => false

/-- Matcher for the WhatsApp pattern ^IMG-\d\x7b8\x7d-WA\d\x7b4\x7d(\.\w+)?$. -/
def matchWhatsApp (l : List Char) : Bool :=
  match dropLit "IMG-" l with
  | some r1 =>
    match chunk 8 Char.isDigit r1 with
    | some r2 =>
      match dropLit "-WA" r2 with
      | some r3 =>
        match chunk 4 Char.isDigit r3 with
        | some r4 => optExt r4
        | none => false
      | none => false
    | none => false
  | none => false

/-- Matcher for ^Screenshot.*(\.\w+)?$ .  In Go's RE2 the dot does not
match a newline, and the optional extension group is absorbed by the
dot-star, so the pattern accepts exactly: the literal head Screenshot
followed by any newline-free remainder. -/
def matchScreenshot (l : List Char) : Bool :=
  match dropLit "Screenshot" l with
  | some rest => rest.all (fun c => !(c == '\n'))
  | none => false

/-- Skip a single optional hyphen.  In the UUID pattern every -? is
followed by a hexadecimal chunk, and a hyphen is not a hexadecimal
character, so consuming a present hyphen is exactly what the regexp
engine is forced to do. -/
def skipDash : List Char → List Char
  | '-' :: r => r
  | r => r

/-- Matcher for the UUID pattern of album.go / queries.go:
^[0-9a-fA-F]\x7b8\x7d-?hex\x7b4\x7d-?hex\x7b4\x7d-?hex\x7b4\x7d-?hex\x7b12\x7d(\.\w+)?$ .
Each of the four hyphens is independently optional, exactly as in the
source regexp. -/
def matchUUID (l : List Char) : Bool :=
  (do
    let r1 ← chunk 8 isHexChar l
    let r2 ← chunk 4 isHexChar (skipDash r1)
    let r3 ← chunk 4 isHexChar (skipDash r2)
    let r4 ← chunk 4 isHexChar (skipDash r3)
    let r5 ← chunk 12 isHexChar (skipDash r4)
    some (optExt r5)).getD false

/-- The cameraPatterns table of backend/models/album.go, evaluated as the
disjunction the loop in IsGenericTitle computes. -/
def cameraMatch (l : List Char) : Bool :=
  matchLitDigits "IMG_" l || matchLitDigits "DSC_" l ||
  matchLitDigits "DSCN" l || matchLitDigits "DSCF" l ||
  matchLitDigits "CDZ_" l ||
  matchP7 l || matchTimestamp l || matchWhatsApp l || matchScreenshot l

/-- The strings.HasPrefix check for the literal IDG_ in IsGenericTitle. -/
def hasIDGHead (l : List Char) : Bool :=
  l.take 4 = "IDG_".data

/-- IsGenericTitle from backend/models/album.go.  Total on all strings:
empty check, TrimSpace, empty check again, then the UUID pattern, the
camera pattern table, and the IDG_ literal head. -/
def IsGenericTitle (s : String) : Bool :=
  if s.data = [] then true
  else
    let t := trimSpaceL s.data
    if t = [] then true
    else matchUUID t || cameraMatch t || hasIDGHead t

/-- A row of the photos table, restricted to the columns the claims
concern (backend/models/photo.go: ID, CreatedAt, UpdatedAt, AlbumID
alias old_album_id, Title, Description).  Timestamps are modelled as
integers. -/
structure PhotoRow where
  id : String
  createdAt : Int
  updatedAt : Int
  oldAlbumId : Option String
  title : String
  description : Option String
  deriving DecidableEq, Repr

/-- Photo.hasGenericTitle from backend/models/photo.go. -/
def hasGenericTitle (p : PhotoRow) : Bool :=
  if p.title = "" then true else IsGenericTitle p.title

/-- Photo.hasEmptyDescription from backend/models/photo.go. -/
def hasEmptyDescription (p : PhotoRow) : Bool :=
  p.description == none || p.description == some ""

/-- Photo.NeedsMetadata from backend/models/photo.go: generic (or empty)
title, or empty (or null) description. -/
def NeedsMetadata (p : PhotoRow) : Bool :=
  hasGenericTitle p || hasEmptyDescription p

/-- The three SQL dialects supported by backend/db/connection.go. -/
inductive Dialect where
  | mysql
  | postgres
  | sqlite
  deriving DecidableEq, Repr

/-- The title part of the WHERE clause of GetPhotosNeedingMetadata on the
REGEXP dialects (MySQL as written; convertToPostgreSQL only swaps the
REGEXP operator for ~, leaving the patterns unchanged): empty title, or
one of the six anchored regular expressions of queries.go lines 29-35.
The title column is never NULL for rows scanned into the Go model, so
the IS NULL disjunct is subsumed by the empty check. -/
def regexTitleEligible (title : String) : Bool :=
  title == "" ||
  (match chunk 3 Char.isAlphanum title.data with
   | some ('_' :: rest) => digitsThenOptExt rest
   | _ => false) ||
  matchP7 title.data || matchTimestamp title.data ||
  matchWhatsApp title.data || matchScreenshot title.data ||
  matchUUID title.data

/-- Substring containment, the semantics of a GLOB *needle* fragment. -/
def containsSub (needle : List Char) : List Char → Bool
  | [] => needle.isEmpty
  | c :: t => ((c :: t).take needle.length = needle) || containsSub needle t

/-- The title predicate targeted by convertToSQLite (queries.go lines
308-319): GLOB and LENGTH approximations of the six regular
expressions, still preceded by the empty-title disjunct.  (In the Go
source the ReplaceAll search strings are double-quoted, so their
backslashes are un-doubled and never match the raw query text; the
rewritten form modelled here is the fallback the code intends.) -/
def sqliteTitleEligible (title : String) : Bool :=
  let l := title.data
  title == "" ||
  -- GLOB '???_*' AND LENGTH(p.title) >= 5
  ((match l with
    | _ :: _ :: _ :: '_' :: _ => true
    | _ => false) && decide (l.length ≥ 5)) ||
  -- GLOB 'P*'
  (match l with
   | 'P' :: _ => true
   | _ => false) ||
  -- GLOB '*_*'
  l.contains '_' ||
  -- GLOB 'IMG-*-WA*'
  ((l.take 4 = "IMG-".data) && containsSub "-WA".data (l.drop 4)) ||
  -- GLOB 'Screenshot*'
  (l.take 10 = "Screenshot".data) ||
  -- LENGTH(p.title) = 32 OR LENGTH(p.title) = 36
  (l.length == 32 || l.length == 36)

/-- The eligibility predicate of GetPhotosNeedingMetadata, per dialect. -/
def queryEligible (d : Dialect) (title : String) : Bool :=
  match d with
  | .mysql => regexTitleEligible title
  | .postgres => regexTitleEligible title
  | .sqlite => sqliteTitleEligible title

/-- The optional album filter: AND p.old_album_id = ? when an album id
is supplied (queries.go lines 40-43). -/
def albumFilterOK (albumID : Option String) (p : PhotoRow) : Bool :=
  match albumID with
  | none => true
  | some a => p.oldAlbumId == some a

/-- Insert a row into a list already sorted by createdAt descending,
keeping it sorted (ties keep existing rows first). -/
def insertDesc (p : PhotoRow) : List PhotoRow → List PhotoRow
  | [] => [p]
  | q :: t => if q.createdAt < p.createdAt then p :: q :: t else q :: insertDesc p t

/-- ORDER BY p.created_at DESC (ties in arbitrary but deterministic
order, as the spec allows). -/
def sortByCreatedDesc : List PhotoRow → List PhotoRow
  | [] => []
  | p :: t => insertDesc p (sortByCreatedDesc t)

/-- GetPhotosNeedingMetadata from backend/db/queries.go: filter the
photos table by the dialect's eligibility predicate and the optional
album filter, order newest first, then apply LIMIT ? (only when the
limit is positive) and OFFSET ? (only when the offset is positive). -/
def GetPhotosNeedingMetadata (d : Dialect) (store : List PhotoRow)
    (albumID : Option String) (limit offset : Int) : List PhotoRow :=
  let eligible := store.filter fun p => queryEligible d p.title && albumFilterOK albumID p
  let ordered := sortByCreatedDesc eligible
  if limit > 0 then
    (if offset > 0 then ordered.drop offset.toNat else ordered).take limit.toNat
  else ordered

/-- The relational store touched by the update path: the photos table
and the photo_album many-to-many join table (rows of photo_id,
album_id). -/
structure Store where
  photos : List PhotoRow
  photoAlbum : List (String × String)
  deriving DecidableEq, Repr

/-- models.PhotoUpdate: the sparse patch accepted by UpdatePhoto.  A nil
pointer in Go is none here. -/
structure PhotoUpdate where
  title : Option String
  description : Option String
  albumID : Option String
  deriving DecidableEq, Repr

/-- The SQL statements issued by UpdatePhoto / UpdatePhotoAlbum, in the
order the Go code executes them.  updAttrs stands for the photo
attributes statement (UPDATE photos SET title/description, updated_at);
updFK for UPDATE photos SET old_album_id; delJoins for DELETE FROM
photo_album WHERE photo_id; insJoin for INSERT INTO photo_album. -/
inductive Stmt where
  | updAttrs (id : String) (title description : Option String) (now : Int)
  | updFK (id : String) (album : String) (now : Int)
  | delJoins (id : String)
  | insJoin (id : String) (album : String)
  deriving DecidableEq, Repr

/-- Whether a statement is the photo-attributes UPDATE. -/
def isAttrUpdate : Stmt → Bool
  | .updAttrs _ _ _ _ => true
  | _ => false

/-- Row transformation of the photo-attributes UPDATE: set the fields
present in the patch and updated_at = NOW() on rows whose id matches. -/
def applyAttrs (id : String) (t d : Option String) (now : Int)
    (p : PhotoRow) : PhotoRow :=
  if p.id = id then
    { p with
      title := t.getD p.title
      description := match d with
        | some v => some v
        | none => p.description
      updatedAt := now }
  else p

/-- Row transformation of UPDATE photos SET old_album_id = ?,
updated_at = NOW() WHERE id = ?. -/
def applyFK (id : String) (album : String) (now : Int) (p : PhotoRow) : PhotoRow :=
  if p.id = id then { p with oldAlbumId := some album, updatedAt := now } else p

/-- Statement execution against the in-memory store.  These statements
cannot fail on an in-memory store; the Go code checks only whether
db.Exec returned a driver error. -/
def execStmt : Stmt → Store → Store
  | .updAttrs id t d now, s => { s with photos := s.photos.map (applyAttrs id t d now) }
  | .updFK id a now, s => { s with photos := s.photos.map (applyFK id a now) }
  | .delJoins id, s => { s with photoAlbum := s.photoAlbum.filter fun r => !(r.1 == id) }
  | .insJoin id a, s => { s with photoAlbum := s.photoAlbum ++ [(id, a)] }

/-- Run a statement sequence in order. -/
def runStmts (l : List Stmt) (s : Store) : Store :=
  l.foldl (fun st stm => execStmt stm st) s

/-- The three-step sequence of UpdatePhotoAlbum (queries.go lines
180-207): (a) update old_album_id, (b) delete the photo's photo_album
rows, (c) insert the new photo_album row. -/
def albumStmts (photoID albumID : String) (now : Int) : List Stmt :=
  [.updFK photoID albumID now, .delJoins photoID, .insJoin photoID albumID]

/-- The statement sequence of UpdatePhoto (queries.go lines 129-178):
when neither title nor description is present, no photo-attributes
statement is issued and only the album change (if any) runs; otherwise
one photo-attributes UPDATE covering exactly the present fields runs
first, followed by the album change when albumID is present.  (The Go
code selects one of three concrete UPDATE strings for the title /
description / both cases; updAttrs carries the same information.) -/
def updatePhotoStmts (id : String) (u : PhotoUpdate) (now : Int) : List Stmt :=
  match u.title, u.description with
  | none, none =>
    match u.albumID with
    | some a => albumStmts id a now
    | none => []
  | t, d =>
    Stmt.updAttrs id t d now ::
      (match u.albumID with
       | some a => albumStmts id a now
       | none => [])

/-- State effect of db.UpdatePhoto. -/
def UpdatePhoto (s : Store) (id : String) (u : PhotoUpdate) (now : Int) : Store :=
  runStmts (updatePhotoStmts id u now) s

/-- db.UpdatePhoto's return value: the Go function returns an error only
when db.Exec reports a driver failure, which the in-memory store never
does; the rows-affected count of each Exec is discarded (the blank
identifier in the source) and never branches.  Hence the result is
always ok, for existing and non-existing photo ids alike. -/
def UpdatePhotoResult (s : Store) (id : String) (u : PhotoUpdate) (now : Int) :
    Except String Store :=
  .ok (UpdatePhoto s id u now)

/-- db.GetPhotoByID: single-row lookup by id; sql.ErrNoRows is turned
into a nil photo (modelled as none), which the handler reports as not
found. -/
def GetPhotoByID (s : Store) (id : String) : Option PhotoRow :=
  s.photos.find? fun p => p.id == id

/-- constants.DefaultPhotoLimit (backend/constants). -/
def DefaultPhotoLimit : Int := 1000

/-- constants.MaxPhotoLimit (backend/constants). -/
def MaxPhotoLimit : Int := 1000

/-- validateLimit from backend/handlers/validation.go: non-positive
limits become the default, limits above the cap are clamped to the cap,
anything else passes through. -/
def validateLimit (limit : Int) : Int :=
  if limit ≤ 0 then DefaultPhotoLimit
  else if limit > MaxPhotoLimit then MaxPhotoLimit
  else limit

/-- validateOffset from backend/handlers/validation.go: negative
offsets become zero. -/
def validateOffset (offset : Int) : Int :=
  if offset < 0 then 0 else offset

theorem applyAttrs_keeps_id (i : String) (t d : Option String) (n : Int)
    (p : PhotoRow) : (applyAttrs i t d n p).id = p.id := by
  unfold applyAttrs
  split_ifs <;> rfl

theorem applyFK_keeps_id (i a : String) (n : Int) (p : PhotoRow) :
    (applyFK i a n p).id = p.id := by
  unfold applyFK
  split_ifs <;> rfl

theorem find_map_keeps_id (i : String) (f : PhotoRow → PhotoRow)
    (hf : ∀ p, (f p).id = p.id) (l : List PhotoRow) :
    (l.map f).find? (fun p => p.id == i) = (l.find? (fun p => p.id == i)).map f := by
  induction l with
  | nil => rfl
  | cons p t ih =>
    by_cases hp : p.id = i
    · simp [List.find?_cons, hf, hp]
    · simp only [List.map_cons, List.find?_cons, hf p]
      have hb : (p.id == i) = false := by simp [hp]
      rw [hb]
      simpa using ih

/-- A stored photo whose title DSCN1234 is generic for the application
classifier (the DSCN camera pattern) while its description is set. -/
def dscnPhoto : PhotoRow :=
  { id := "p1", createdAt := 0, updatedAt := 0, oldAlbumId := none,
    title := "DSCN1234", description := some "x" }

/-- A stored photo whose title abc_1 matches the query's general
3-alphanumeric rule but none of the classifier's rules, with a set
description. -/
def abcPhoto : PhotoRow :=
  { id := "p2", createdAt := 0, updatedAt := 0, oldAlbumId := none,
    title := "abc_1", description := some "y" }

/-- A stored photo with a human-written title and a null description. -/
def sunsetPhoto : PhotoRow :=
  { id := "p3", createdAt := 0, updatedAt := 0, oldAlbumId := none,
    title := "Sunset over the bay", description := none }

/-- Claim C1: the claim requires Photo.NeedsMetadata to coincide with
the query's eligibility predicate on every dialect; the code violates
it in both directions.  The photo titled DSCN1234 with a set
description needs metadata for the application code (DSCN camera
pattern) but is rejected by the query predicate on all three dialects,
while the photo titled abc_1 with a set description does not need
metadata for the application code yet is accepted by the query
predicate on all three dialects. -/
theorem needsMetadata_disagrees_with_query_predicate :
    NeedsMetadata dscnPhoto = true ∧
    queryEligible .mysql dscnPhoto.title = false ∧
    queryEligible .postgres dscnPhoto.title = false ∧
    queryEligible .sqlite dscnPhoto.title = false ∧
    NeedsMetadata abcPhoto = false ∧
    queryEligible .mysql abcPhoto.title = true ∧
    queryEligible .postgres abcPhoto.title = true ∧
    queryEligible .sqlite abcPhoto.title = true := by
  decide

/-- Claim C3: the claim states that the query's eligibility predicate
OR-s in a description-is-empty condition; the WHERE clause of
GetPhotosNeedingMetadata contains no description condition at all, so a
photo with a human-written title and a null description, although
NeedsMetadata holds for it, is excluded from the result on every
dialect (limit 10, offset 0, no album filter). -/
theorem query_has_no_description_clause :
    NeedsMetadata sunsetPhoto = true ∧
    hasEmptyDescription sunsetPhoto = true ∧
    GetPhotosNeedingMetadata .mysql [sunsetPhoto] none 10 0 = [] ∧
    GetPhotosNeedingMetadata .postgres [sunsetPhoto] none 10 0 = [] ∧
    GetPhotosNeedingMetadata .sqlite [sunsetPhoto] none 10 0 = [] := by
  decide

/-- Claim C4 counterexample: the claim caps the effective limit at 100,
but the configured MaxPhotoLimit is 1000, so a requested limit of 1000
is passed through unclamped and is not at most 100. -/
theorem validateLimit_1000_passes_through :
    validateLimit 1000 = 1000 ∧ ¬ validateLimit 1000 ≤ 100 := by
  decide

/-- Claim C2: the claim (and the repository's own README, which gives
CD5_5678 as an example) requires IsGenericTitle to accept every title
matching the three-alphanumeric-prefix pattern; the classifier only
accepts the literal families IMG_/DSC_/DSCN/DSCF/CDZ_, so CD5_5678 and
DSZ_9012 — accepted by the query-side pattern — are classified
human-written. -/
theorem threeAlnum_pattern_disagrees_with_classifier :
    regexTitleEligible "CD5_5678" = true ∧
    IsGenericTitle "CD5_5678" = false ∧
    IsGenericTitle "CD5_5678.jpg" = false ∧
    regexTitleEligible "DSZ_9012" = true ∧
    IsGenericTitle "DSZ_9012" = false ∧
    IsGenericTitle "IMG_1234" = true ∧
    IsGenericTitle "IMG_1234.jpg" = true := by
  decide

/-- Claim C5 counterexample: the claim says the UUID rule accepts only
the all-hyphens and no-hyphens configurations, but each hyphen in the
source pattern is independently optional, so a title with a hyphen in
only the first of the four positions satisfies the UUID rule and is
classified generic. -/
theorem uuid_partial_hyphens_accepted :
    matchUUID "123e4567-e89b12d3a456426614174000".data = true ∧
    IsGenericTitle "123e4567-e89b12d3a456426614174000" = true := by
  decide

/-- Claim C5 as amended: the UUID rule accepts the 8-4-4-4-12
hexadecimal grouping with each of the four hyphens independently
optional (any subset of the hyphen positions), with an optional
dot-plus-word extension; in particular the fully hyphenated example,
the same with a .jpg extension, the same 32 hex digits without hyphens,
and partially hyphenated variants are all classified generic. -/
theorem uuid_rule_each_hyphen_optional :
    IsGenericTitle "123e4567-e89b-12d3-a456-426614174000" = true ∧
    IsGenericTitle "123e4567-e89b-12d3-a456-426614174000.jpg" = true ∧
    IsGenericTitle "123e4567e89b12d3a456426614174000" = true ∧
    matchUUID "123e4567e89b-12d3a456426614174000".data = true ∧
    matchUUID "123e4567-e89b12d3-a456426614174000".data = true ∧
    matchUUID "123e4567e89b12d3a456-426614174000".data = true := by
  decide

/-- Claim C4 as amended: the effective limit is clamped into
[1, MaxPhotoLimit] where MaxPhotoLimit is 1000 (not 100): a requested
limit of 1000 passes through unchanged, over-cap requests such as 2000
are silently clamped to 1000 rather than rejected, non-positive limits
become the default of 1000, the offset is clamped to be non-negative,
and the query returns at most 1000 rows for a validated limit of 1000. -/
theorem validateLimit_clamps_into_1_to_1000 :
    (∀ l : Int, 1 ≤ validateLimit l ∧ validateLimit l ≤ MaxPhotoLimit) ∧
    validateLimit 1000 = 1000 ∧
    validateLimit 2000 = 1000 ∧
    validateLimit 0 = 1000 ∧
    (∀ o : Int, 0 ≤ validateOffset o) ∧
    (∀ (d : Dialect) (store : List PhotoRow),
      (GetPhotosNeedingMetadata d store none (validateLimit 1000) 0).length ≤ 1000) := by
  refine ⟨?_, by decide, by decide, by decide, ?_, ?_⟩
  · intro l
    unfold validateLimit DefaultPhotoLimit MaxPhotoLimit
    split_ifs <;> omega
  · intro o
    unfold validateOffset
    split_ifs <;> omega
  · intro d store
    show (GetPhotosNeedingMetadata d store none 1000 0).length ≤ 1000
    unfold GetPhotosNeedingMetadata
    norm_num [List.length_take]

/-- Claim C9: IsGenericTitle (a total function on strings by
construction) returns true on the empty string and on a
whitespace-only string, and false on a prose title and on a pure-digit
title. -/
theorem isGenericTitle_edge_cases :
    IsGenericTitle "" = true ∧
    IsGenericTitle "   " = true ∧
    IsGenericTitle "Sunset over the bay" = false ∧
    IsGenericTitle "12345" = false := by
  decide

/-- Claim C6: when the patch carries a photo-attribute field (title
and/or description) together with an album id, UpdatePhoto issues
exactly the photo-attributes statement first, followed by the
three-step album reassignment (update the foreign key, delete the
existing join rows, insert the new join row), in that order; and the
re-query that produces the response, running after all four
statements, observes every one of the writes (the new title and
description fields, the new album foreign key, and the new
updated_at). -/
theorem updatePhoto_attrs_before_album (s : Store) (id a : String)
    (u : PhotoUpdate) (now : Int)
    (hattr : u.title ≠ none ∨ u.description ≠ none)
    (halb : u.albumID = some a) :
    updatePhotoStmts id u now =
      [Stmt.updAttrs id u.title u.description now, Stmt.updFK id a now,
       Stmt.delJoins id, Stmt.insJoin id a] ∧
    (GetPhotoByID (UpdatePhoto s id u now) id).map
        (fun p => (p.title, p.description, p.oldAlbumId, p.updatedAt)) =
      (GetPhotoByID s id).map
        (fun p =>
          (u.title.getD p.title,
           (match u.description with
            | some w => some w
            | none => p.description),
           some a, now)) := by
  obtain ⟨ut, ud, ua⟩ := u
  cases halb
  have htrace : updatePhotoStmts id ⟨ut, ud, some a⟩ now =
      [Stmt.updAttrs id ut ud now, Stmt.updFK id a now,
       Stmt.delJoins id, Stmt.insJoin id a] := by
    cases ut <;> cases ud
    · simp at hattr
    · rfl
    · rfl
    · rfl
  refine ⟨htrace, ?_⟩
  have hphotos : (UpdatePhoto s id ⟨ut, ud, some a⟩ now).photos =
      (s.photos.map (applyAttrs id ut ud now)).map (applyFK id a now) := by
    rw [UpdatePhoto, htrace]
    rfl
  unfold GetPhotoByID
  rw [hphotos, find_map_keeps_id id _ (applyFK_keeps_id id a now),
    find_map_keeps_id id _ (applyAttrs_keeps_id id ut ud now)]
  cases hfind : s.photos.find? (fun p => p.id == id) with
  | none => rfl
  | some p =>
    have hid : p.id = id := by
      have := List.find?_some hfind
      simpa using this
    simp [applyAttrs, applyFK, hid]

/-- Per-row effect of one UpdatePhoto call: the photo-attributes UPDATE
(when a title or description is present) followed by the foreign-key
UPDATE (when an album id is present). -/
def rowEffect (id : String) (u : PhotoUpdate) (now : Int) (p : PhotoRow) : PhotoRow :=
  match u.title, u.description, u.albumID with
  | none, none, none => p
  | none, none, some a => applyFK id a now p
  | t, d, none => applyAttrs id t d now p
  | t, d, some a => applyFK id a now (applyAttrs id t d now p)

theorem store_eq_of_fields {s1 s2 : Store} (h1 : s1.photos = s2.photos)
    (h2 : s1.photoAlbum = s2.photoAlbum) : s1 = s2 := by
  cases s1
  cases s2
  cases h1
  cases h2
  rfl

/-- Closed form of one UpdatePhoto call: the photos table is mapped by
the per-row effect, and the join table is rewritten (delete the photo's
rows, append the new row) exactly when an album id is present. -/
theorem updatePhoto_closed (s : Store) (id : String) (u : PhotoUpdate) (now : Int) :
    (UpdatePhoto s id u now).photos = s.photos.map (rowEffect id u now) ∧
    (UpdatePhoto s id u now).photoAlbum =
      (match u.albumID with
       | some a => s.photoAlbum.filter (fun r => !(r.1 == id)) ++ [(id, a)]
       | none => s.photoAlbum) := by
  obtain ⟨ut, ud, ua⟩ := u
  have hid : (rowEffect id ⟨none, none, none⟩ now) = fun p => p := by
    funext p
    rfl
  cases ut <;> cases ud <;> cases ua <;>
    simp [UpdatePhoto, updatePhotoStmts, albumStmts, runStmts, execStmt,
      rowEffect, hid, List.map_map, Function.comp]

theorem rowEffect_twice (id : String) (u : PhotoUpdate) (t1 t2 : Int) (p : PhotoRow) :
    rowEffect id u t2 (rowEffect id u t1 p) = rowEffect id u t2 p := by
  obtain ⟨ut, ud, ua⟩ := u
  by_cases h : p.id = id
  · cases ut <;> cases ud <;> cases ua <;>
      simp [rowEffect, applyAttrs, applyFK, h]
  · cases ut <;> cases ud <;> cases ua <;>
      simp [rowEffect, applyAttrs, applyFK, h]

theorem joins_del_ins_twice (X : List (String × String)) (i a : String) :
    ((X.filter (fun r => !(r.1 == i)) ++ [(i, a)]).filter fun r => !(r.1 == i)) =
      X.filter fun r => !(r.1 == i) := by
  rw [List.filter_append]
  simp [List.filter_filter]

theorem joins_only_new_row (X : List (String × String)) (i a : String) :
    ((X.filter (fun r => !(r.1 == i)) ++ [(i, a)]).filter fun r => r.1 == i) =
      [(i, a)] := by
  rw [List.filter_append]
  simp [List.filter_filter]

theorem updatePhoto_photos_eq (s : Store) (id : String) (u : PhotoUpdate) (now : Int) :
    (UpdatePhoto s id u now).photos = s.photos.map (rowEffect id u now) :=
  (updatePhoto_closed s id u now).1

theorem updatePhoto_joins_eq (s : Store) (id : String) (u : PhotoUpdate) (now : Int) :
    (UpdatePhoto s id u now).photoAlbum =
      (match u.albumID with
       | some a => s.photoAlbum.filter (fun r => !(r.1 == id)) ++ [(id, a)]
       | none => s.photoAlbum) :=
  (updatePhoto_closed s id u now).2

theorem rowEffect_title_frame (id : String) (u : PhotoUpdate) (now : Int)
    (p : PhotoRow) (h : u.title = none) : (rowEffect id u now p).title = p.title := by
  obtain ⟨ut, ud, ua⟩ := u
  cases h
  cases ud <;> cases ua <;> by_cases hp : p.id = id <;>
    simp [rowEffect, applyAttrs, applyFK, hp]

theorem rowEffect_desc_frame (id : String) (u : PhotoUpdate) (now : Int)
    (p : PhotoRow) (h : u.description = none) :
    (rowEffect id u now p).description = p.description := by
  obtain ⟨ut, ud, ua⟩ := u
  cases h
  cases ut <;> cases ua <;> by_cases hp : p.id = id <;>
    simp [rowEffect, applyAttrs, applyFK, hp]

theorem rowEffect_album_frame (id : String) (u : PhotoUpdate) (now : Int)
    (p : PhotoRow) (h : u.albumID = none) :
    (rowEffect id u now p).oldAlbumId = p.oldAlbumId := by
  obtain ⟨ut, ud, ua⟩ := u
  cases h
  cases ut <;> cases ud <;> by_cases hp : p.id = id <;>
    simp [rowEffect, applyAttrs, applyFK, hp]

theorem rowEffect_noop (id : String) (u : PhotoUpdate) (now : Int)
    (p : PhotoRow) (h : p.id ≠ id) : rowEffect id u now p = p := by
  obtain ⟨ut, ud, ua⟩ := u
  cases ut <;> cases ud <;> cases ua <;>
    simp [rowEffect, applyAttrs, applyFK, h]

/-- Claim C7: one UpdatePhoto call followed by a second call with the
same patch leaves exactly the stored state a single call would have
produced, and after two album reassignments of the same photo to the
same album, the join table holds exactly one row for that photo. -/
theorem updatePhoto_idempotent (s : Store) (id : String) (u : PhotoUpdate)
    (t1 t2 : Int) (a : String) :
    UpdatePhoto (UpdatePhoto s id u t1) id u t2 = UpdatePhoto s id u t2 ∧
    (UpdatePhoto (UpdatePhoto s id ⟨u.title, u.description, some a⟩ t1) id
        ⟨u.title, u.description, some a⟩ t2).photoAlbum.filter
        (fun r => r.1 == id) = [(id, a)] := by
  constructor
  · apply store_eq_of_fields
    · rw [updatePhoto_photos_eq, updatePhoto_photos_eq, updatePhoto_photos_eq,
        List.map_map]
      refine List.map_congr_left fun p _ => ?_
      simpa [Function.comp] using rowEffect_twice id u t1 t2 p
    · rw [updatePhoto_joins_eq, updatePhoto_joins_eq, updatePhoto_joins_eq]
      cases hua : u.albumID with
      | none => rfl
      | some a0 => simp [joins_del_ins_twice]
  · rw [updatePhoto_joins_eq, updatePhoto_joins_eq]
    show ((s.photoAlbum.filter (fun r => !(r.1 == id)) ++ [(id, a)]).filter
        (fun r => !(r.1 == id)) ++ [(id, a)]).filter (fun r => r.1 == id) = [(id, a)]
    rw [joins_del_ins_twice]
    exact joins_only_new_row s.photoAlbum id a

/-- Claim C8: UpdatePhoto has sparse patch semantics.  Every stored
field whose patch entry is absent keeps its value for every photo: an
absent title leaves all titles unchanged, an absent description leaves
all descriptions unchanged, an absent album id leaves both the album
foreign keys and the join table unchanged; and a patch with only an
album id issues exactly the three album statements and no
photo-attributes statement. -/
theorem updatePhoto_sparse_frame (s : Store) (id : String) (u : PhotoUpdate)
    (now : Int) (a : String) :
    (u.title = none →
      (UpdatePhoto s id u now).photos.map PhotoRow.title = s.photos.map PhotoRow.title) ∧
    (u.description = none →
      (UpdatePhoto s id u now).photos.map PhotoRow.description =
        s.photos.map PhotoRow.description) ∧
    (u.albumID = none →
      (UpdatePhoto s id u now).photos.map PhotoRow.oldAlbumId =
          s.photos.map PhotoRow.oldAlbumId ∧
      (UpdatePhoto s id u now).photoAlbum = s.photoAlbum) ∧
    (u.title = none → u.description = none → u.albumID = some a →
      updatePhotoStmts id u now = albumStmts id a now ∧
      (updatePhotoStmts id u now).all (fun st => !(isAttrUpdate st)) = true) := by
  refine ⟨?_, ?_, ?_, ?_⟩
  · intro h
    rw [updatePhoto_photos_eq, List.map_map]
    exact List.map_congr_left fun p _ => rowEffect_title_frame id u now p h
  · intro h
    rw [updatePhoto_photos_eq, List.map_map]
    exact List.map_congr_left fun p _ => rowEffect_desc_frame id u now p h
  · intro h
    constructor
    · rw [updatePhoto_photos_eq, List.map_map]
      exact List.map_congr_left fun p _ => rowEffect_album_frame id u now p h
    · rw [updatePhoto_joins_eq, h]
  · intro h1 h2 h3
    obtain ⟨ut, ud, ua⟩ := u
    cases h1
    cases h2
    cases h3
    exact ⟨rfl, rfl⟩

/-- Claim C10: for a photo id that exists nowhere in the store,
UpdatePhoto still reports success (its UPDATE and DELETE statements
match zero rows, the INSERT is not checked for referential integrity,
and the rows-affected counts are discarded), the photos table is left
exactly as it was, and the nonexistence is observable only through
GetPhotoByID, which returns the not-found signal both before and after
the update. -/
theorem updatePhoto_missing_id_no_error (s : Store) (id : String)
    (u : PhotoUpdate) (now : Int) (h : ∀ p ∈ s.photos, p.id ≠ id) :
    UpdatePhotoResult s id u now = .ok (UpdatePhoto s id u now) ∧
    (UpdatePhoto s id u now).photos = s.photos ∧
    GetPhotoByID s id = none ∧
    GetPhotoByID (UpdatePhoto s id u now) id = none := by
  have hphotos : (UpdatePhoto s id u now).photos = s.photos := by
    rw [updatePhoto_photos_eq]
    calc s.photos.map (rowEffect id u now)
        = s.photos.map (fun p => p) :=
          List.map_congr_left fun p hp => rowEffect_noop id u now p (h p hp)
      _ = s.photos := by simp
  have hfind : GetPhotoByID s id = none := by
    rw [GetPhotoByID, List.find?_eq_none]
    intro p hp
    simpa using h p hp
  refine ⟨rfl, hphotos, hfind, ?_⟩
  rw [GetPhotoByID, hphotos]
  rw [GetPhotoByID] at hfind
  exact hfind

/-- A one-photo store used to instantiate the update theorems: photo p1
with a generic camera title, no description, in album a1, mirrored in
the join table. -/
def wStore : Store :=
  { photos := [{ id := "p1", createdAt := 3, updatedAt := 0,
                 oldAlbumId := some "a1", title := "IMG_0007.jpg",
                 description := none }],
    photoAlbum := [("p1", "a1")] }

/-- The concrete patch of the spec's walkthrough scenario: new title,
new description, reassignment to album a2. -/
def w6upd : PhotoUpdate :=
  { title := some "Morning Fog", description := some "Taken from the ferry",
    albumID := some "a2" }

/-- Witness for claim C6 at the concrete scenario patch: the hypotheses
(an attribute field present, an album id present) hold for w6upd, and
the conclusion follows by the theorem. -/
theorem updatePhoto_attrs_before_album_witness :
    (w6upd.title ≠ none ∨ w6upd.description ≠ none) ∧
    w6upd.albumID = some "a2" ∧
    (updatePhotoStmts "p1" w6upd 7 =
      [Stmt.updAttrs "p1" w6upd.title w6upd.description 7, Stmt.updFK "p1" "a2" 7,
       Stmt.delJoins "p1", Stmt.insJoin "p1" "a2"] ∧
     (GetPhotoByID (UpdatePhoto wStore "p1" w6upd 7) "p1").map
         (fun p => (p.title, p.description, p.oldAlbumId, p.updatedAt)) =
       (GetPhotoByID wStore "p1").map
         (fun p =>
           (w6upd.title.getD p.title,
            (match w6upd.description with
             | some w => some w
             | none => p.description),
            some "a2", 7))) :=
  ⟨Or.inl (by decide), rfl,
   updatePhoto_attrs_before_album wStore "p1" "a2" w6upd 7
     (Or.inl (by decide)) rfl⟩

/-- Witness for claim C8: the frame conditions instantiated at an
album-only patch (title, description and join conclusions plus the
no-attributes-statement conclusion) and at a title-only patch (the
album-unchanged conclusion), hypotheses discharged by rfl. -/
theorem updatePhoto_sparse_frame_witness :
    ((UpdatePhoto wStore "p1" ⟨none, none, some "a2"⟩ 7).photos.map PhotoRow.title =
       wStore.photos.map PhotoRow.title) ∧
    ((UpdatePhoto wStore "p1" ⟨none, none, some "a2"⟩ 7).photos.map PhotoRow.description =
       wStore.photos.map PhotoRow.description) ∧
    ((UpdatePhoto wStore "p1" ⟨some "T", none, none⟩ 7).photos.map PhotoRow.oldAlbumId =
       wStore.photos.map PhotoRow.oldAlbumId ∧
     (UpdatePhoto wStore "p1" ⟨some "T", none, none⟩ 7).photoAlbum = wStore.photoAlbum) ∧
    (updatePhotoStmts "p1" (⟨none, none, some "a2"⟩ : PhotoUpdate) 7 =
       albumStmts "p1" "a2" 7 ∧
     (updatePhotoStmts "p1" (⟨none, none, some "a2"⟩ : PhotoUpdate) 7).all
       (fun st => !(isAttrUpdate st)) = true) :=
  ⟨(updatePhoto_sparse_frame wStore "p1" ⟨none, none, some "a2"⟩ 7 "a2").1 rfl,
   (updatePhoto_sparse_frame wStore "p1" ⟨none, none, some "a2"⟩ 7 "a2").2.1 rfl,
   (updatePhoto_sparse_frame wStore "p1" ⟨some "T", none, none⟩ 7 "a2").2.2.1 rfl,
   (updatePhoto_sparse_frame wStore "p1" ⟨none, none, some "a2"⟩ 7 "a2").2.2.2 rfl rfl rfl⟩

/-- Witness for claim C10 at a photo id absent from the concrete store:
the absence hypothesis holds by computation and the conclusion follows
by the theorem. -/
theorem updatePhoto_missing_id_no_error_witness :
    (∀ p ∈ wStore.photos, p.id ≠ "zz") ∧
    (UpdatePhotoResult wStore "zz" w6upd 7 = .ok (UpdatePhoto wStore "zz" w6upd 7) ∧
     (UpdatePhoto wStore "zz" w6upd 7).photos = wStore.photos ∧
     GetPhotoByID wStore "zz" = none ∧
     GetPhotoByID (UpdatePhoto wStore "zz" w6upd 7) "zz" = none) :=
  ⟨by decide,
   updatePhoto_missing_id_no_error wStore "zz" w6upd 7 (by decide)⟩

end LycheeMeta
